import Mathlib

/-!
Verification of the locator resolution and validation engine of the
mobile-app test-automation repository.  The definitions below are a shallow
embedding of the Python sources `screen.py` and `locator_generator.py`:
pure functions become Lean functions, the Appium driver becomes an explicit
`Surface` record of query functions, JSON candidate dictionaries become a
structure with `Option` fields (a missing dictionary key is `none`), and
Python floats are embedded as rationals with the exact decimal constants of
the source.
-/

/-! ## Data model -/

/-- Quality tiers of `LocatorQuality` in locator_generator.py (lines 19-24). -/
inductive LocatorQuality where
  | excellent
  | good
  | acceptable
  | poor
deriving DecidableEq, Repr

/-- A live UI element as the resolver sees it: an identity plus the result of
the `is_displayed()` query the driver reports for it. -/
structure Element where
  eid : Nat
  is_displayed : Bool
deriving DecidableEq, Repr

/-- The UI surface (Appium driver) as a query function: `find strategy value
timeout` models `WebDriverWait(driver, timeout).until(presence_of_element_located
((strategies[strategy], value)))`, returning `none` for a timeout or
not-found outcome. -/
structure Surface where
  find : String → String → Nat → Option Element

/-- One locator dictionary, as in the JSON candidates: keys `strategy`,
`value`, `timeout`; a missing key is `none`. -/
structure PrimaryLoc where
  strategy : Option String
  value : Option String
  timeout : Option Nat
deriving DecidableEq, Repr

/-- A parsed JSON candidate object handed to validation, quality assessment
and confidence scoring (the dictionary `locator_data` / `element_data` of
locator_generator.py); every key may be absent.  Keys the analysis functions
never read (such as `description`) are not represented. -/
structure Candidate where
  element_name : Option String
  element_type : Option String
  primary_locator : Option PrimaryLoc
  fallback_locators : Option (List PrimaryLoc)
  suggested_actions : Option (List String)
  validation_text : Option String
  screen_context : Option String
  scroll_position : Option String
  accessibility_info : Option (List (String × String))
deriving DecidableEq, Repr

/-- The `LocatorAnalysis` dataclass of locator_generator.py (lines 27-39). -/
structure LocatorAnalysis where
  element_name : String
  primary_locator : PrimaryLoc
  fallback_locators : List PrimaryLoc
  element_type : String
  suggested_actions : List String
  validation_text : Option String
  screen_context : String
  quality_score : LocatorQuality
  accessibility_info : List (String × String)
  confidence : ℚ
deriving DecidableEq, Repr

/-- Failure modes of the analysis pipelines: `schemaViolation` models the
ValueError raised when `_validate_generated_locator` rejects a candidate,
`keyError` a Python KeyError from a direct dictionary access. -/
inductive GenError where
  | schemaViolation
  | keyError (key : String)
deriving DecidableEq, Repr

/-! ## String helpers (Python `in` and `str.count`) -/

/-- Whether `sub` is an initial segment of `l` (character lists). -/
def prefixOf : List Char → List Char → Bool
  | [], _ => true
  | _ :: _, [] => false
  | a :: as, b :: bs => a = b && prefixOf as bs

/-- Whether `sub` occurs somewhere inside `l` (character lists). -/
def infixOf (sub : List Char) : List Char → Bool
  | [] => prefixOf sub []
  | l@(_ :: rest) => prefixOf sub l || infixOf sub rest

/-- Python `sub in v` for strings: substring containment. -/
def hasSubstr (v sub : String) : Bool := infixOf sub.toList v.toList

/-- Python `v.count(c)` for a single character `c`. -/
def countChar (v : String) (c : Char) : Nat :=
  (v.toList.filter (fun d => d = c)).length

/-- Number of positions of `l` where `sub` starts (occurrence count of a
multi-character token; used only by the spec-side reading of the quality
table). -/
def countOcc (sub : List Char) : List Char → Nat
  | [] => 0
  | c :: rest => (if prefixOf sub (c :: rest) then 1 else 0) + countOcc sub rest

/-! ## Quality scorer: `_assess_locator_quality` (locator_generator.py 161-178) -/

/-- The if/elif chain of `_assess_locator_quality` once `strategy` and
`value` have been read out of the dictionary.  Python truthiness of `value`
is non-emptiness; `not '//' in value` is absence of the two-character
substring `//`; `value.count('/') <= k` counts single slash characters. -/
def assess_quality_core (strategy value : String) : LocatorQuality :=
  if strategy = "id" ∧ value ≠ "" ∧ hasSubstr value "//" = false then .excellent
  else if strategy = "accessibility_id" ∧ value ≠ "" then .excellent
  else if strategy = "class_name" ∧ value ≠ "" ∧ hasSubstr value "//" = false then .good
  else if strategy = "xpath" ∧ countChar value '/' ≤ 3 then .good
  else if strategy = "xpath" ∧ countChar value '/' ≤ 6 then .acceptable
  else .poor

/-- `_assess_locator_quality(locator)`: reads `locator.get('strategy', '')`
and `locator.get('value', '')` then applies the rule chain. -/
def _assess_locator_quality (locator : PrimaryLoc) : LocatorQuality :=
  assess_quality_core (locator.strategy.getD "") (locator.value.getD "")

/-- Numeric rank of a tier under the ordering excellent > good > acceptable
> poor. -/
def tierVal : LocatorQuality → Nat
  | .excellent => 3
  | .good => 2
  | .acceptable => 1
  | .poor => 0

/-- Spec-side reading of the quality rule table with one uniform
path-separator token, the single character `/` (path depth likewise counts
`/`).  Stated from the specification's words to compare with the source's
`assess_quality_core`. -/
def spec_assessQuality_slash (strategy value : String) : LocatorQuality :=
  if strategy = "id" ∧ value ≠ "" ∧ countChar value '/' = 0 then .excellent
  else if strategy = "accessibility_id" ∧ value ≠ "" then .excellent
  else if strategy = "class_name" ∧ value ≠ "" ∧ countChar value '/' = 0 then .good
  else if strategy = "xpath" ∧ countChar value '/' ≤ 3 then .good
  else if strategy = "xpath" ∧ countChar value '/' ≤ 6 then .acceptable
  else .poor

/-- Spec-side reading of the quality rule table with one uniform
path-separator token, the two-character sequence `//` (path depth counts its
occurrences).  Stated from the specification's words to compare with the
source's `assess_quality_core`. -/
def spec_assessQuality_dslash (strategy value : String) : LocatorQuality :=
  if strategy = "id" ∧ value ≠ "" ∧ countOcc "//".toList value.toList = 0 then .excellent
  else if strategy = "accessibility_id" ∧ value ≠ "" then .excellent
  else if strategy = "class_name" ∧ value ≠ "" ∧ countOcc "//".toList value.toList = 0 then .good
  else if strategy = "xpath" ∧ countOcc "//".toList value.toList ≤ 3 then .good
  else if strategy = "xpath" ∧ countOcc "//".toList value.toList ≤ 6 then .acceptable
  else .poor

/-! ## Element resolver: `find_element_safe` (screen.py 262-307) -/

/-- The keys of the `strategies` dictionary of `find_element_safe`
(screen.py 270-276), in insertion order. -/
def strategies : List String :=
  ["id", "xpath", "accessibility_id", "class_name", "android_uiautomator"]

/-- The trial order of `find_element_safe` (screen.py 279): the primary
strategy first, then every other known strategy. -/
def strategy_order (locator_strategy : String) : List String :=
  [locator_strategy] ++ strategies.filter (fun s => s ≠ locator_strategy)

/-- Python `timeout = timeout or self.DEFAULT_TIMEOUT` (screen.py 267):
a missing or zero (falsy) timeout becomes the default 15. -/
def effective_timeout : Option Nat → Nat
  | none => 15
  | some t => if t = 0 then 15 else t

/-- The per-trial wait `timeout // len(strategy_order)` (screen.py 287). -/
def per_trial_timeout (budget : Nat) (locator_strategy : String) : Nat :=
  budget / (strategy_order locator_strategy).length

/-- The fixed timeout of the final text fallback (screen.py 298). -/
def text_fallback_timeout : Nat := 2

/-- The xpath of the final text fallback,
`//*[contains(@text, '<value>')]` (screen.py 299). -/
def text_fallback_xpath (locator_value : String) : String :=
  "//*[contains(@text, \x27" ++ locator_value ++ "\x27)]"

/-- The strategy loop of `find_element_safe` (screen.py 282-294): walk the
trial order, skip strategies not in the known dictionary, query the surface
with the per-trial timeout, and accept the first element that is found and
displayed.  A not-found / timeout outcome or a non-displayed element moves
on to the next trial. -/
def tryStrategies (surface : Surface) (value : String) (t : Nat) :
    List String → Option Element
  | [] => none
  | s :: rest =>
    if s ∈ strategies then
      match surface.find s value t with
      | some e => if e.is_displayed then some e else tryStrategies surface value t rest
      | none => tryStrategies surface value t rest
    else tryStrategies surface value t rest

/-- `find_element_safe(locator_strategy, locator_value, timeout)`
(screen.py 262-307), for an initialized driver: try every strategy of the
trial order under the divided timeout, then the text-containment fallback
under its own short timeout (accepted without a displayed check), and
otherwise raise `NoSuchElementException(f"Element not found: {locator_value}")`. -/
def find_element_safe (surface : Surface) (locator_strategy locator_value : String)
    (timeout : Option Nat) : Except String Element :=
  match tryStrategies surface locator_value
      (per_trial_timeout (effective_timeout timeout) locator_strategy)
      (strategy_order locator_strategy) with
  | some e => Except.ok e
  | none =>
    match surface.find "xpath" (text_fallback_xpath locator_value) text_fallback_timeout with
    | some e => Except.ok e
    | none => Except.error ("Element not found: " ++ locator_value)

/-- The per-trial waits a resolution call can spend: one wait of
`budget / len(strategy_order)` for each trial strategy that is actually
attempted (i.e. present in the known-strategy dictionary). -/
def trial_timeouts (budget : Nat) (locator_strategy : String) : List Nat :=
  ((strategy_order locator_strategy).filter (fun s => s ∈ strategies)).map
    (fun _ => per_trial_timeout budget locator_strategy)

/-! ## Confidence scorer: `_calculate_confidence` (locator_generator.py 424-444) -/

/-- The `strategy_scores` dictionary (locator_generator.py 430-433). -/
def strategy_scores : List (String × ℚ) :=
  [("id", 0.4), ("accessibility_id", 0.35), ("class_name", 0.2),
   ("android_uiautomator", 0.15), ("xpath", 0.1), ("name", 0.1), ("tag_name", 0.05)]

/-- Python `dict.get(k, d)` over an association list. -/
def lookupD (l : List (String × ℚ)) (k : String) (d : ℚ) : ℚ :=
  ((l.find? (fun p => p.1 = k)).map Prod.snd).getD d

/-- Truthiness of `locator_data.get('accessibility_info', {}).get('content_desc')`
(locator_generator.py 441): the key is present and maps to a non-empty
string. -/
def contentDescTruthy (locator_data : Candidate) : Bool :=
  match (locator_data.accessibility_info.getD []).find? (fun p => p.1 = "content_desc") with
  | some p => p.2 ≠ ""
  | none => false

/-- `_calculate_confidence(locator_data, page_source)` (locator_generator.py
424-444).  The direct accesses `locator_data['primary_locator']['strategy']`
raise KeyError when either key is absent, modelled as `none`; `page_source`
is never read by the function body.  Base 0.5, plus the per-strategy bonus
(default 0 for an unknown strategy), plus `min(fallback_count * 0.05, 0.15)`,
plus 0.1 for a truthy content description, capped at 1.0. -/
def _calculate_confidence (locator_data : Candidate) : Option ℚ :=
  match locator_data.primary_locator with
  | none => none
  | some pl =>
    match pl.strategy with
    | none => none
    | some strategy =>
      let base : ℚ := 0.5
      let withStrategy := base + lookupD strategy_scores strategy 0
      let fallback_count : ℕ := (locator_data.fallback_locators.getD []).length
      let withFallback := withStrategy + min ((fallback_count : ℚ) * 0.05) 0.15
      let withAccess := if contentDescTruthy locator_data then withFallback + 0.1 else withFallback
      some (min withAccess 1)

/-! ## Validator: `_validate_generated_locator` (locator_generator.py 180-207) -/

/-- `_validate_generated_locator(locator_data)`, parametrized by the schema
registry sets (`supported_strategies`, `element_types`, `supported_actions`
are instance attributes loaded from the schema file).  Checks, in source
order: the three required keys, `primary_locator['strategy']` membership
(the KeyError of a missing `strategy` key is caught and yields False),
`element_type` membership, and — only when present — membership of every
entry of `suggested_actions`. -/
def _validate_generated_locator (strats etypes acts : List String)
    (locator_data : Candidate) : Bool :=
  match locator_data.element_name, locator_data.element_type, locator_data.primary_locator with
  | some _, some element_type, some primary =>
    match primary.strategy with
    | none => false
    | some strategy =>
      if strategy ∈ strats then
        if element_type ∈ etypes then
          match locator_data.suggested_actions with
          | none => true
          | some actions => actions.all (fun a => decide (a ∈ acts))
        else false
      else false
  | _, _, _ => false

/-! ## Analysis pipelines (locator_generator.py 283-315 and 386-412) -/

/-- The post-extraction pipeline of `analyze_element` (locator_generator.py
386-412), from the parsed candidate JSON to the result: the candidate is
validated first (a failure raises the ValueError modelled as
`schemaViolation`), then quality, confidence and the `LocatorAnalysis`
record are built.  The `keyError` branches mirror the direct dictionary
accesses; validation success makes them unreachable. -/
def analyze_element_pipeline (strats etypes acts : List String)
    (screen_context : String) (locator_data : Candidate) : Except GenError LocatorAnalysis :=
  if _validate_generated_locator strats etypes acts locator_data = true then
    match locator_data.primary_locator with
    | none => Except.error (GenError.keyError "primary_locator")
    | some pl =>
      match _calculate_confidence locator_data with
      | none => Except.error (GenError.keyError "strategy")
      | some confidence =>
        match locator_data.element_name, locator_data.element_type with
        | some nm, some et =>
          Except.ok
            { element_name := nm
              primary_locator := pl
              fallback_locators := locator_data.fallback_locators.getD []
              element_type := et
              suggested_actions := locator_data.suggested_actions.getD []
              validation_text := locator_data.validation_text
              screen_context := locator_data.screen_context.getD screen_context
              quality_score := _assess_locator_quality pl
              accessibility_info := locator_data.accessibility_info.getD []
              confidence := confidence }
        | _, _ => Except.error (GenError.keyError "element_name")
  else Except.error GenError.schemaViolation

/-- The per-element body of the `analyze_complete_screen` loop
(locator_generator.py 292-310), from one parsed `element_data` candidate to
its `LocatorAnalysis`: quality and confidence are computed and the record is
built directly — no call to `_validate_generated_locator` occurs on this
path.  The `keyError` branches mirror the direct accesses
`element_data['primary_locator']`, `...['strategy']` (inside
`_calculate_confidence`), `element_data['element_name']` and
`element_data['element_type']`. -/
def analyze_screen_element_pipeline (screen_context : String)
    (element_data : Candidate) : Except GenError LocatorAnalysis :=
  match element_data.primary_locator with
  | none => Except.error (GenError.keyError "primary_locator")
  | some pl =>
    match _calculate_confidence element_data with
    | none => Except.error (GenError.keyError "strategy")
    | some confidence =>
      match element_data.element_name, element_data.element_type with
      | some nm, some et =>
        Except.ok
          { element_name := nm
            primary_locator := pl
            fallback_locators := element_data.fallback_locators.getD []
            element_type := et
            suggested_actions := element_data.suggested_actions.getD []
            validation_text := element_data.validation_text
            screen_context := screen_context ++ "_" ++ element_data.scroll_position.getD "unknown"
            quality_score := _assess_locator_quality pl
            accessibility_info := element_data.accessibility_info.getD []
            confidence := confidence }
      | _, _ => Except.error (GenError.keyError "element_name")

/-! ## Lemmas about the quality scorer -/

/-- Unfolding `_assess_locator_quality` on a locator with both keys present. -/
theorem assess_mk_some (s v : String) (t : Option Nat) :
    _assess_locator_quality ⟨some s, some v, t⟩ = assess_quality_core s v := rfl

/-- For a strategy matching none of the four named ones, every rule falls
through to poor, whatever the value. -/
theorem assess_core_strategy_not_matched (s v : String)
    (h1 : s ≠ "id") (h2 : s ≠ "accessibility_id") (h3 : s ≠ "class_name")
    (h4 : s ≠ "xpath") :
    assess_quality_core s v = LocatorQuality.poor := by
  unfold assess_quality_core
  rw [if_neg (fun h => h1 h.1), if_neg (fun h => h2 h.1), if_neg (fun h => h3 h.1),
    if_neg (fun h => h4 h.1), if_neg (fun h => h4 h.1)]

/-- On xpath locators the rule chain collapses to the slash-count ladder. -/
theorem assess_core_xpath_eq (v : String) :
    assess_quality_core "xpath" v =
      if countChar v '/' ≤ 3 then LocatorQuality.good
      else if countChar v '/' ≤ 6 then LocatorQuality.acceptable
      else LocatorQuality.poor := by
  unfold assess_quality_core
  rw [if_neg (fun h => absurd h.1 (by decide)), if_neg (fun h => absurd h.1 (by decide)),
    if_neg (fun h => absurd h.1 (by decide))]
  by_cases h3 : countChar v '/' ≤ 3
  · rw [if_pos ⟨rfl, h3⟩, if_pos h3]
  · rw [if_neg (fun h => absurd h.2 h3), if_neg h3]
    by_cases h6 : countChar v '/' ≤ 6
    · rw [if_pos ⟨rfl, h6⟩, if_pos h6]
    · rw [if_neg (fun h => absurd h.2 h6), if_neg h6]

/-! ## Claim theorems about the quality scorer -/

/-- C3 counterexample: no single uniform reading of "path-separator token"
makes the spec's rule table agree with the code.  With the token read as the
single character `/`, an id locator whose value contains one slash is poor
per the table but excellent per the code; with the token read as `//`, an
xpath value of four single slashes (zero `//` occurrences) is good per the
table but acceptable per the code. -/
theorem quality_uniform_separator_counterexample :
    (_assess_locator_quality ⟨some "id", some "a/b", none⟩ = LocatorQuality.excellent ∧
      spec_assessQuality_slash "id" "a/b" = LocatorQuality.poor) ∧
    (_assess_locator_quality ⟨some "xpath", some "/a/b/c/d", none⟩ = LocatorQuality.acceptable ∧
      spec_assessQuality_dslash "xpath" "/a/b/c/d" = LocatorQuality.good) := by
  decide

/-- C3 (amended): the deterministic top-to-bottom first-match rule table of
`_assess_locator_quality`, where the no-path-separator condition of the id
and class_name rows tests absence of the two-character substring `//`, while
the xpath rows count single `/` characters as path depth. -/
theorem quality_rule_table (s v : String) (t : Option Nat) :
    (s = "id" ∧ v ≠ "" ∧ hasSubstr v "//" = false →
      _assess_locator_quality ⟨some s, some v, t⟩ = LocatorQuality.excellent) ∧
    (s = "accessibility_id" ∧ v ≠ "" →
      _assess_locator_quality ⟨some s, some v, t⟩ = LocatorQuality.excellent) ∧
    (s = "class_name" ∧ v ≠ "" ∧ hasSubstr v "//" = false →
      _assess_locator_quality ⟨some s, some v, t⟩ = LocatorQuality.good) ∧
    (s = "xpath" ∧ countChar v '/' ≤ 3 →
      _assess_locator_quality ⟨some s, some v, t⟩ = LocatorQuality.good) ∧
    (s = "xpath" ∧ ¬ countChar v '/' ≤ 3 ∧ countChar v '/' ≤ 6 →
      _assess_locator_quality ⟨some s, some v, t⟩ = LocatorQuality.acceptable) ∧
    (¬ (s = "id" ∧ v ≠ "" ∧ hasSubstr v "//" = false) →
      ¬ (s = "accessibility_id" ∧ v ≠ "") →
      ¬ (s = "class_name" ∧ v ≠ "" ∧ hasSubstr v "//" = false) →
      ¬ (s = "xpath" ∧ countChar v '/' ≤ 3) →
      ¬ (s = "xpath" ∧ countChar v '/' ≤ 6) →
      _assess_locator_quality ⟨some s, some v, t⟩ = LocatorQuality.poor) := by
  refine ⟨?_, ?_, ?_, ?_, ?_, ?_⟩
  · rintro ⟨hs, hv, hsub⟩
    subst hs
    rw [assess_mk_some]
    unfold assess_quality_core
    rw [if_pos ⟨rfl, hv, hsub⟩]
  · rintro ⟨hs, hv⟩
    subst hs
    rw [assess_mk_some]
    unfold assess_quality_core
    rw [if_neg (fun h => absurd h.1 (by decide)), if_pos ⟨rfl, hv⟩]
  · rintro ⟨hs, hv, hsub⟩
    subst hs
    rw [assess_mk_some]
    unfold assess_quality_core
    rw [if_neg (fun h => absurd h.1 (by decide)), if_neg (fun h => absurd h.1 (by decide)),
      if_pos ⟨rfl, hv, hsub⟩]
  · rintro ⟨hs, h3⟩
    subst hs
    rw [assess_mk_some, assess_core_xpath_eq, if_pos h3]
  · rintro ⟨hs, h3, h6⟩
    subst hs
    rw [assess_mk_some, assess_core_xpath_eq, if_neg h3, if_pos h6]
  · intro n1 n2 n3 n4 n5
    rw [assess_mk_some]
    unfold assess_quality_core
    rw [if_neg n1, if_neg n2, if_neg n3, if_neg n4, if_neg n5]

/-- C7: on xpath candidates the assessed tier is monotonically non-increasing
in the slash-count path depth, and the depth thresholds 3 and 6 mark the
good / acceptable / poor bands. -/
theorem quality_xpath_monotone (v1 v2 : String) (t1 t2 : Option Nat)
    (h : countChar v1 '/' ≤ countChar v2 '/') :
    tierVal (_assess_locator_quality ⟨some "xpath", some v2, t2⟩) ≤
      tierVal (_assess_locator_quality ⟨some "xpath", some v1, t1⟩) ∧
    (countChar v1 '/' ≤ 3 →
      _assess_locator_quality ⟨some "xpath", some v1, t1⟩ = LocatorQuality.good) ∧
    (3 < countChar v1 '/' ∧ countChar v1 '/' ≤ 6 →
      _assess_locator_quality ⟨some "xpath", some v1, t1⟩ = LocatorQuality.acceptable) ∧
    (6 < countChar v1 '/' →
      _assess_locator_quality ⟨some "xpath", some v1, t1⟩ = LocatorQuality.poor) := by
  rw [assess_mk_some, assess_mk_some, assess_core_xpath_eq, assess_core_xpath_eq]
  refine ⟨?_, ?_, ?_, ?_⟩
  · split_ifs <;> simp [tierVal] <;> omega
  · intro h3
    rw [if_pos h3]
  · rintro ⟨h3, h6⟩
    rw [if_neg (by omega), if_pos h6]
  · intro h6
    rw [if_neg (by omega), if_neg (by omega)]

/-- C7 witness: a depth-2 and a depth-7 xpath value. -/
theorem quality_xpath_monotone_witness :
    tierVal (_assess_locator_quality ⟨some "xpath", some "/a/b/c/d/e/f/g", none⟩) ≤
      tierVal (_assess_locator_quality ⟨some "xpath", some "//a", none⟩) ∧
    (countChar "//a" '/' ≤ 3 →
      _assess_locator_quality ⟨some "xpath", some "//a", none⟩ = LocatorQuality.good) ∧
    (3 < countChar "//a" '/' ∧ countChar "//a" '/' ≤ 6 →
      _assess_locator_quality ⟨some "xpath", some "//a", none⟩ = LocatorQuality.acceptable) ∧
    (6 < countChar "//a" '/' →
      _assess_locator_quality ⟨some "xpath", some "//a", none⟩ = LocatorQuality.poor) :=
  quality_xpath_monotone "//a" "/a/b/c/d/e/f/g" none none (by decide)

/-- C10: `_assess_locator_quality` is total over arbitrary candidate
dictionaries — a missing strategy or value key behaves exactly as the empty
string there (whatever the timeout key holds), a candidate with no strategy
is rated poor whatever its value, and an xpath candidate with an empty value
is rated good (zero slashes, depth 0). -/
theorem quality_total_on_missing_keys (s v : Option String) (t t2 : Option Nat) :
    _assess_locator_quality ⟨none, v, t⟩ = _assess_locator_quality ⟨some "", v, t2⟩ ∧
    _assess_locator_quality ⟨s, none, t⟩ = _assess_locator_quality ⟨s, some "", t2⟩ ∧
    _assess_locator_quality ⟨none, v, t⟩ = LocatorQuality.poor ∧
    _assess_locator_quality ⟨some "xpath", some "", t⟩ = LocatorQuality.good := by
  refine ⟨rfl, rfl, ?_, ?_⟩
  · exact assess_core_strategy_not_matched "" (v.getD "")
      (by decide) (by decide) (by decide) (by decide)
  · exact assess_core_xpath_eq ""

/-! ## Lemmas about the element resolver -/

/-- Exhaustion characterization of the strategy loop: it yields nothing
exactly when every known strategy of the list fails to produce a displayed
element. -/
theorem tryStrategies_eq_none_iff (surface : Surface) (val : String) (t : Nat)
    (l : List String) :
    tryStrategies surface val t l = none ↔
      ∀ s ∈ l, s ∈ strategies →
        ∀ e, surface.find s val t = some e → e.is_displayed = false := by
  induction l with
  | nil => simp [tryStrategies]
  | cons a as ih =>
    rw [List.forall_mem_cons]
    by_cases ha : a ∈ strategies
    · cases hf : surface.find a val t with
      | none =>
        have step : tryStrategies surface val t (a :: as) = tryStrategies surface val t as := by
          simp [tryStrategies, ha, hf]
        rw [step, ih]
        constructor
        · intro h
          exact ⟨fun _ e he => Option.noConfusion he, h⟩
        · exact fun h => h.2
      | some e =>
        cases hd : e.is_displayed with
        | true =>
          have step : tryStrategies surface val t (a :: as) = some e := by
            simp [tryStrategies, ha, hf, hd]
          rw [step]
          constructor
          · intro h
            cases h
          · rintro ⟨hPa, -⟩
            have hcontra := hPa ha e rfl
            rw [hd] at hcontra
            cases hcontra
        | false =>
          have step : tryStrategies surface val t (a :: as) = tryStrategies surface val t as := by
            simp [tryStrategies, ha, hf, hd]
          rw [step, ih]
          constructor
          · intro h
            refine ⟨fun _ e2 he2 => ?_, h⟩
            cases he2
            exact hd
          · exact fun h => h.2
    · have step : tryStrategies surface val t (a :: as) = tryStrategies surface val t as := by
        simp [tryStrategies, ha]
      rw [step, ih]
      constructor
      · intro h
        exact ⟨fun hmem => absurd hmem ha, h⟩
      · exact fun h => h.2

/-- If every known strategy of a front segment fails to produce a displayed
element and the next trial strategy is known and produces a displayed one,
the loop returns that element. -/
theorem tryStrategies_append_found (surface : Surface) (val : String) (t : Nat)
    (l1 l2 : List String) (s : String) (e : Element)
    (h1 : ∀ u ∈ l1, u ∈ strategies →
      ∀ e2, surface.find u val t = some e2 → e2.is_displayed = false)
    (hs : s ∈ strategies) (hf : surface.find s val t = some e)
    (hd : e.is_displayed = true) :
    tryStrategies surface val t (l1 ++ s :: l2) = some e := by
  induction l1 with
  | nil => simp [tryStrategies, hs, hf, hd]
  | cons a as ih =>
    have bulk := ih (fun u hu => h1 u (List.mem_cons_of_mem a hu))
    rw [List.cons_append]
    by_cases ha : a ∈ strategies
    · cases hf2 : surface.find a val t with
      | none => simpa [tryStrategies, ha, hf2] using bulk
      | some e2 =>
        have hnd := h1 a (List.mem_cons_self a as) ha e2 hf2
        simpa [tryStrategies, ha, hf2, hnd] using bulk
    · simpa [tryStrategies, ha] using bulk

/-- Auxiliary sum identity: a constant-valued map sums to length times the
constant. -/
theorem sum_map_const_nat {α : Type} (l : List α) (c : Nat) :
    (l.map (fun _ => c)).sum = l.length * c := by
  induction l with
  | nil => simp
  | cons a as ih =>
    rw [List.map_cons, List.sum_cons, ih, List.length_cons, Nat.succ_mul, Nat.add_comm]

/-! ## Claim theorems about the element resolver -/

/-- C1: a resolution call carries one primary strategy and one value, the
trial order is the primary strategy first followed by every other known
strategy (the call passes no fallback-locator list, so that segment of the
order is empty), every trial carries the caller-supplied value, and whenever
all earlier trials fail to yield a visible element while a later trial
strategy yields one, the resolution returns that element as a success. -/
theorem resolver_trial_order_fallback (surface : Surface) (s val : String)
    (t0 : Option Nat) (l1 l2 : List String) (strat : String) (e : Element)
    (horder : strategy_order s = l1 ++ strat :: l2)
    (hfail : ∀ u ∈ l1, u ∈ strategies →
      ∀ e2, surface.find u val (per_trial_timeout (effective_timeout t0) s) = some e2 →
        e2.is_displayed = false)
    (hstrat : strat ∈ strategies)
    (hfound : surface.find strat val (per_trial_timeout (effective_timeout t0) s) = some e)
    (hvis : e.is_displayed = true) :
    strategy_order s = s :: strategies.filter (fun u => u ≠ s) ∧
    find_element_safe surface s val t0 = Except.ok e := by
  constructor
  · rfl
  · unfold find_element_safe
    rw [horder, tryStrategies_append_found surface val _ l1 l2 strat e hfail hstrat hfound hvis]

/-- A demo element reported as displayed. -/
def demoElem : Element := ⟨1, true⟩

/-- Demo surface on which only the xpath strategy yields an element. -/
def demoSurface : Surface :=
  ⟨fun strat _ _ => if strat = "xpath" then some demoElem else none⟩

/-- C1 witness: resolving with primary strategy id and value login_btn on a
surface where only the xpath trial yields a visible element succeeds with
that element. -/
theorem resolver_trial_order_fallback_witness :
    strategy_order "id" = "id" :: strategies.filter (fun u => u ≠ "id") ∧
    find_element_safe demoSurface "id" "login_btn" (some 15) = Except.ok demoElem := by
  refine resolver_trial_order_fallback demoSurface "id" "login_btn" (some 15)
    ["id"] ["accessibility_id", "class_name", "android_uiautomator"] "xpath" demoElem
    (by decide) ?_ (by decide) rfl rfl
  intro u hu _ e2 he2
  rw [List.mem_singleton] at hu
  subst hu
  rw [show demoSurface.find "id" "login_btn"
      (per_trial_timeout (effective_timeout (some 15)) "id") = none from rfl] at he2
  cases he2

/-- C2: each per-strategy wait of a resolution call equals the overall
budget divided evenly by the number of trial strategies, so the sum of all
per-strategy waits over the attempted strategies never exceeds the budget,
however many strategies are attempted; the final text fallback runs under
its own fixed two-second timeout, independent of the budget. -/
theorem resolver_timeout_budget (budget : Nat) (s : String) :
    (∀ w ∈ trial_timeouts budget s, w ≤ budget / (strategy_order s).length) ∧
    (trial_timeouts budget s).sum ≤ budget ∧
    text_fallback_timeout = 2 := by
  refine ⟨?_, ?_, rfl⟩
  · intro w hw
    rw [trial_timeouts] at hw
    rcases List.mem_map.mp hw with ⟨x, -, rfl⟩
    unfold per_trial_timeout
    exact Nat.le_refl _
  · rw [trial_timeouts, sum_map_const_nat]
    calc ((strategy_order s).filter (fun u => u ∈ strategies)).length *
          per_trial_timeout budget s
        ≤ (strategy_order s).length * per_trial_timeout budget s :=
          mul_le_mul_right' (List.length_filter_le _ _) _
      _ = budget / (strategy_order s).length * (strategy_order s).length := by
          rw [Nat.mul_comm]; rfl
      _ ≤ budget := Nat.div_mul_le_self budget _

/-- C8: a resolution call fails exactly when every trial strategy fails to
yield a visible element and the final text-containment fallback for the
value also finds nothing, and the error message then names the original
caller-supplied value. -/
theorem resolver_exhaustion_error (surface : Surface) (s val : String)
    (t0 : Option Nat) (msg : String) :
    find_element_safe surface s val t0 = Except.error msg ↔
      (msg = "Element not found: " ++ val ∧
        (∀ strat ∈ strategy_order s, strat ∈ strategies →
          ∀ e, surface.find strat val (per_trial_timeout (effective_timeout t0) s) = some e →
            e.is_displayed = false) ∧
        surface.find "xpath" (text_fallback_xpath val) text_fallback_timeout = none) := by
  unfold find_element_safe
  rw [← tryStrategies_eq_none_iff]
  cases h1 : tryStrategies surface val (per_trial_timeout (effective_timeout t0) s)
      (strategy_order s) with
  | some e => simp
  | none =>
    cases h2 : surface.find "xpath" (text_fallback_xpath val) text_fallback_timeout with
    | some e => simp
    | none => simp [eq_comm]

/-! ## Lemmas about the confidence scorer -/

/-- Every bonus of the strategy-score table is non-negative, so a lookup
with default 0 is non-negative. -/
theorem lookupD_scores_nonneg (s : String) : 0 ≤ lookupD strategy_scores s 0 := by
  unfold lookupD
  cases h : strategy_scores.find? (fun p => decide (p.1 = s)) with
  | none => simp
  | some p =>
    have hp := List.mem_of_find?_eq_some h
    simp only [Option.map_some', Option.getD_some]
    fin_cases hp <;> norm_num

/-- A key matching no entry of an association list looks up to the default. -/
theorem lookupD_eq_default (l : List (String × ℚ)) (k : String) (d : ℚ)
    (h : ∀ p ∈ l, p.1 ≠ k) : lookupD l k d = d := by
  unfold lookupD
  rw [List.find?_eq_none.mpr]
  · rfl
  · intro p hp
    simpa using h p hp

/-- Closed form of `_calculate_confidence` on a candidate whose primary
locator carries a strategy. -/
theorem calculate_confidence_eq (c : Candidate) (pl : PrimaryLoc) (s : String)
    (hpl : c.primary_locator = some pl) (hs : pl.strategy = some s) :
    _calculate_confidence c =
      some (min (0.5 + lookupD strategy_scores s 0
        + min (((c.fallback_locators.getD []).length : ℚ) * 0.05) 0.15
        + (if contentDescTruthy c = true then (0.1 : ℚ) else 0)) 1) := by
  unfold _calculate_confidence
  cases hcd : contentDescTruthy c with
  | true => simp [hpl, hs, hcd]
  | false => simp [hpl, hs, hcd]

/-! ## Claim theorems about the confidence scorer -/

/-- C4: the confidence of a record whose primary locator carries a strategy
equals base 0.5 plus the per-strategy bonus (unknown strategies contribute
0), plus `min(0.05 * fallback_count, 0.15)`, plus 0.1 for a present
non-empty content description, clamped to 1 from above — and the result lies
in the interval 0 to 1 for every combination of strategy, fallback count and
accessibility info. -/
theorem confidence_formula_and_range (c : Candidate) (pl : PrimaryLoc) (s : String)
    (hpl : c.primary_locator = some pl) (hs : pl.strategy = some s) :
    _calculate_confidence c =
      some (min (0.5 + lookupD strategy_scores s 0
        + min (((c.fallback_locators.getD []).length : ℚ) * 0.05) 0.15
        + (if contentDescTruthy c = true then (0.1 : ℚ) else 0)) 1) ∧
    (∀ q, _calculate_confidence c = some q → 0 ≤ q ∧ q ≤ 1) := by
  have heq := calculate_confidence_eq c pl s hpl hs
  refine ⟨heq, ?_⟩
  intro q hq
  rw [heq] at hq
  have hq' : q = min (0.5 + lookupD strategy_scores s 0
      + min (((c.fallback_locators.getD []).length : ℚ) * 0.05) 0.15
      + (if contentDescTruthy c = true then (0.1 : ℚ) else 0)) 1 :=
    (Option.some.injEq _ _).mp hq.symm
  have hsum : (0 : ℚ) ≤ 0.5 + lookupD strategy_scores s 0
      + min (((c.fallback_locators.getD []).length : ℚ) * 0.05) 0.15
      + (if contentDescTruthy c = true then (0.1 : ℚ) else 0) := by
    have h1 := lookupD_scores_nonneg s
    have h2 : (0 : ℚ) ≤ min (((c.fallback_locators.getD []).length : ℚ) * 0.05) 0.15 :=
      le_min (by positivity) (by norm_num)
    have h3 : (0 : ℚ) ≤ (if contentDescTruthy c = true then (0.1 : ℚ) else 0) := by
      split_ifs <;> norm_num
    linarith
  constructor
  · rw [hq']
    exact le_min hsum (by norm_num)
  · rw [hq']
    exact min_le_right _ _

/-- A demo candidate with a reliable strategy, one fallback locator and a
content description. -/
def fullCand : Candidate :=
  { element_name := some "login_button"
    element_type := some "button"
    primary_locator := some ⟨some "id", some "login_btn", some 15⟩
    fallback_locators := some [⟨some "xpath", some "//Button", some 15⟩]
    suggested_actions := some ["click"]
    validation_text := none
    screen_context := some "login"
    scroll_position := none
    accessibility_info := some [("content_desc", "Login button")] }

/-- C4 witness: the closed confidence formula evaluated on a concrete
candidate. -/
theorem confidence_formula_and_range_witness :
    _calculate_confidence fullCand =
      some (min (0.5 + lookupD strategy_scores "id" 0
        + min (((fullCand.fallback_locators.getD []).length : ℚ) * 0.05) 0.15
        + (if contentDescTruthy fullCand = true then (0.1 : ℚ) else 0)) 1) :=
  (confidence_formula_and_range fullCand ⟨some "id", some "login_btn", some 15⟩ "id" rfl rfl).1

/-- C9: for every record whose primary locator carries a strategy the
confidence is at least the base 0.5 and at most 1; a record with a strategy
outside the score table, no fallback locators and no content description
scores exactly 0.5, so the lower half of the published range is never
produced. -/
theorem confidence_lower_bound (c : Candidate) (pl : PrimaryLoc) (s : String)
    (hpl : c.primary_locator = some pl) (hs : pl.strategy = some s) :
    (∀ q, _calculate_confidence c = some q → 0.5 ≤ q ∧ q ≤ 1) ∧
    ((∀ p ∈ strategy_scores, p.1 ≠ s) → c.fallback_locators.getD [] = [] →
      contentDescTruthy c = false → _calculate_confidence c = some 0.5) := by
  have heq := calculate_confidence_eq c pl s hpl hs
  constructor
  · intro q hq
    rw [heq] at hq
    have hq' : q = min (0.5 + lookupD strategy_scores s 0
        + min (((c.fallback_locators.getD []).length : ℚ) * 0.05) 0.15
        + (if contentDescTruthy c = true then (0.1 : ℚ) else 0)) 1 :=
      (Option.some.injEq _ _).mp hq.symm
    have h1 := lookupD_scores_nonneg s
    have h2 : (0 : ℚ) ≤ min (((c.fallback_locators.getD []).length : ℚ) * 0.05) 0.15 :=
      le_min (by positivity) (by norm_num)
    have h3 : (0 : ℚ) ≤ (if contentDescTruthy c = true then (0.1 : ℚ) else 0) := by
      split_ifs <;> norm_num
    constructor
    · rw [hq']
      exact le_min (by linarith) (by norm_num)
    · rw [hq']
      exact min_le_right _ _
  · intro hunknown hfb hcd
    rw [heq, lookupD_eq_default _ _ _ hunknown, hfb, hcd]
    norm_num

/-- A demo candidate whose strategy is outside the score table, with no
fallback locators and no accessibility info. -/
def bareCand : Candidate :=
  { element_name := some "mystery"
    element_type := some "button"
    primary_locator := some ⟨some "bogus_strategy", some "val", none⟩
    fallback_locators := none
    suggested_actions := none
    validation_text := none
    screen_context := none
    scroll_position := none
    accessibility_info := none }

/-- C9 witness: the degenerate candidate scores exactly the base 0.5. -/
theorem confidence_lower_bound_witness :
    _calculate_confidence bareCand = some 0.5 :=
  (confidence_lower_bound bareCand ⟨some "bogus_strategy", some "val", none⟩
    "bogus_strategy" rfl rfl).2 (by decide) rfl rfl

/-! ## Claim theorems about the validator and the analysis pipelines -/

/-- C6: `_validate_generated_locator` returns false whenever one of the three
required fields is missing, whenever the primary strategy is outside the
registry strategy set, whenever the element type is outside the element-type
set, and whenever some entry of a present `suggested_actions` list is
outside the action set; it returns true whenever the required fields are
present with only known enum values (whatever the optional fields hold), and
being a total function it never raises on malformed or missing optional
fields. -/
theorem validator_rules (strats etypes acts : List String) (c : Candidate) :
    (c.element_name = none → _validate_generated_locator strats etypes acts c = false) ∧
    (c.element_type = none → _validate_generated_locator strats etypes acts c = false) ∧
    (c.primary_locator = none → _validate_generated_locator strats etypes acts c = false) ∧
    (∀ pl s, c.primary_locator = some pl → pl.strategy = some s → s ∉ strats →
      _validate_generated_locator strats etypes acts c = false) ∧
    (∀ et, c.element_type = some et → et ∉ etypes →
      _validate_generated_locator strats etypes acts c = false) ∧
    (∀ l a, c.suggested_actions = some l → a ∈ l → a ∉ acts →
      _validate_generated_locator strats etypes acts c = false) ∧
    (∀ nm et pl s, c.element_name = some nm → c.element_type = some et →
      c.primary_locator = some pl → pl.strategy = some s →
      s ∈ strats → et ∈ etypes →
      (∀ l, c.suggested_actions = some l → ∀ a ∈ l, a ∈ acts) →
      _validate_generated_locator strats etypes acts c = true) := by
  obtain ⟨en, et, pl, fb, sa, vt, sc, sp, ai⟩ := c
  refine ⟨?_, ?_, ?_, ?_, ?_, ?_, ?_⟩
  · rintro rfl
    cases et <;> cases pl <;> rfl
  · rintro rfl
    cases en <;> cases pl <;> rfl
  · rintro rfl
    cases en <;> cases et <;> rfl
  · rintro pl0 s rfl hs hnotin
    cases en with
    | none => rfl
    | some nm =>
      cases et with
      | none => rfl
      | some et0 =>
        simp only [_validate_generated_locator, hs, if_neg hnotin]
  · rintro et0 rfl hnotin
    cases en with
    | none => rfl
    | some nm =>
      cases pl with
      | none => rfl
      | some pl0 =>
        cases hs : pl0.strategy with
        | none => simp [_validate_generated_locator, hs]
        | some s =>
          simp only [_validate_generated_locator, hs, if_neg hnotin, ite_self]
  · rintro l a rfl hmem hnotin
    cases en with
    | none => rfl
    | some nm =>
      cases et with
      | none => rfl
      | some et0 =>
        cases pl with
        | none => rfl
        | some pl0 =>
          cases hs : pl0.strategy with
          | none => simp [_validate_generated_locator, hs]
          | some s =>
            have hall : l.all (fun a => decide (a ∈ acts)) = false := by
              rw [List.all_eq_false]
              exact ⟨a, hmem, by simpa using hnotin⟩
            simp only [_validate_generated_locator, hs, hall, ite_self]
  · rintro nm et0 pl0 s rfl rfl rfl hs hsmem hetmem hacts
    simp only [_validate_generated_locator, hs, if_pos hsmem, if_pos hetmem]
    cases sa with
    | none => rfl
    | some l =>
      rw [List.all_eq_true]
      intro a ha
      simpa using hacts l rfl a ha

/-- A demo element-type registry (the enum sets themselves live in the
schema file `locator_schema.json`, outside the analysed sources; any sets
exhibit the pipeline behaviour since the claims quantify over the
registry). -/
def demo_element_types : List String :=
  ["button", "text_field", "text_view", "image", "checkbox", "dropdown", "list_item"]

/-- A demo action registry. -/
def demo_actions : List String := ["click", "send_keys", "verify_text"]

/-- C6 witness: a fully known candidate validates on the demo registry. -/
theorem validator_rules_witness :
    _validate_generated_locator strategies demo_element_types demo_actions fullCand = true :=
  (validator_rules strategies demo_element_types demo_actions fullCand).2.2.2.2.2.2
    "login_button" "button" ⟨some "id", some "login_btn", some 15⟩ "id"
    rfl rfl rfl rfl (by decide) (by decide)
    (fun l hl => by cases hl; intro a ha; fin_cases ha; decide)

/-- A candidate whose primary strategy is outside every registry used here:
all three required fields are present, so the multi-element pipeline happily
builds a record from it although the validator rejects it. -/
def invalidCand : Candidate :=
  { element_name := some "ghost_button"
    element_type := some "button"
    primary_locator := some ⟨some "made_up_strategy", some "whatever", some 15⟩
    fallback_locators := none
    suggested_actions := none
    validation_text := none
    screen_context := none
    scroll_position := some "top"
    accessibility_info := none }

/-- C5 counterexample: the whole-screen (multi-element) inference variant
builds and returns a `LocatorRecord` from a candidate the structural
validator rejects — the extracted JSON is not passed through the validator
on that path, contradicting the claim that both variants validate before
any record is produced. -/
theorem screen_pipeline_no_validation_counterexample :
    _validate_generated_locator strategies demo_element_types demo_actions invalidCand
      = false ∧
    (analyze_screen_element_pipeline "complete_screen" invalidCand).isOk = true := by
  exact ⟨by decide, rfl⟩

/-- C5 (amended): the single-element variant `analyze_element` passes the
extracted JSON through the structural validator before any record is built —
it returns a record only for candidates the validator accepts and fails with
the schema-violation error on every candidate the validator rejects — but
the multi-element whole-screen variant builds records without consulting the
validator. -/
theorem element_pipeline_validates (strats etypes acts : List String)
    (ctx : String) (c : Candidate) :
    (∀ r, analyze_element_pipeline strats etypes acts ctx c = Except.ok r →
      _validate_generated_locator strats etypes acts c = true) ∧
    (_validate_generated_locator strats etypes acts c = false →
      analyze_element_pipeline strats etypes acts ctx c = Except.error GenError.schemaViolation) := by
  constructor
  · intro r hr
    by_cases hv : _validate_generated_locator strats etypes acts c = true
    · exact hv
    · rw [analyze_element_pipeline, if_neg hv] at hr
      cases hr
  · intro hv
    rw [analyze_element_pipeline, if_neg (by rw [hv]; exact fun h => Bool.noConfusion h)]
